import Mathlib

/-!
# Verification development for sadco-io/sad-go-telemetry

Shallow embedding of the telemetry facade and its two backend clients:

* `telemetry/open_telemetry.go` — the streaming (OpenTelemetry) backend
  (`Ot` prefixed definitions);
* `telemetry/opentelemetry.go` — a near-duplicate, older variant of the
  streaming backend (`o2` prefixed definitions), whose `newOpenTelemetry`
  shadows its provider variables and whose `RecordGauge`/`Shutdown` differ
  from the `open_telemetry.go` versions;
* the AppInsights (flat event) backend (`ai` prefixed definitions) together
  with the configuration resolver (`getTelemetryType`, `NewTelemetry`).

Mutable state is made explicit: each backend operation is a function from a
world (the record of transport submissions, structured-log deliveries and
span store) to a new world.  Machine floats carry no arithmetic anywhere in
the source, so `float64` payloads are carried opaquely as integers.
-/

namespace SadGoTelemetry

/-- A `float64` payload.  The source never performs arithmetic on metric or
attribute float values — they are passed through to the transport — so they
are carried opaquely. -/
abbrev GoFloat := Int

/-- Go `error` values: `none` is the nil error, `some s` an error whose
`Error()` method yields `s`. -/
abbrev GoError := Option String

/-- Attribute values (`go.opentelemetry.io/otel/attribute`): string, int64,
float64 and bool scalar payloads. -/
inductive AttrValue where
  | str (s : String)
  | int (i : Int)
  | float (f : GoFloat)
  | bool (b : Bool)
deriving DecidableEq

/-- A span/event/metric attribute: key paired with a scalar value. -/
abbrev Attr := String × AttrValue

/-- Models `attribute.Value.Emit` from the otel attribute collaborator: the
deterministic string rendering of a scalar value. -/
def attrValueEmit : AttrValue → String
  | .str s => s
  | .int i => toString i
  | .float f => toString f
  | .bool b => if b then "true" else "false"

/-- Models `attribute.Value.AsFloat64` from the otel attribute collaborator.
No claim depends on the bit-level reinterpretation Go performs for non-float
kinds, so only float payloads are carried through. -/
def attrValueAsFloat64 : AttrValue → GoFloat
  | .float f => f
  | _ => 0

/-- `time.Duration.Milliseconds()`: nanoseconds divided by 10^6, truncated
toward zero as in Go integer division. -/
def durationMilliseconds (ns : Int) : Int := ns.tdiv 1000000

/-- One delivery to the structured-logging collaborator
(`sadco-io/sad-go-logger`), with severity, message, attached error (zap.Error)
and attribute payload (zap.Any). -/
inductive LogLine where
  | info (msg : String) (attrs : List Attr)
  | warn (msg : String) (attrs : List Attr)
  | error (msg : String) (err : GoError) (attrs : List Attr)
deriving DecidableEq

/-- Span status codes (`go.opentelemetry.io/otel/codes`). -/
inductive StatusCode where
  | unset
  | error
  | ok
deriving DecidableEq

/-- The status stored on a span: the SDK keeps the description only for the
error code. -/
inductive SpanStatus where
  | unset
  | ok
  | error (desc : String)
deriving DecidableEq

/-- State of one SDK span created by `tracer.Start`.  Modelled from the otel
SDK collaborator contract: a span records attributes, events and a status
while live, and `End` is effective exactly once (`ended` flag); operations on
an ended span are ignored.  (The SDK's Ok-is-final status precedence policy is
not modelled: no facade path sets Ok on a span that stays live.) -/
structure OtelSpan where
  name : String
  attrs : List Attr
  events : List (String × List Attr)
  status : SpanStatus
  ended : Bool
deriving DecidableEq

/-- A fresh recording span, as produced by `tracer.Start`. -/
def newOtelSpan (name : String) : OtelSpan :=
  { name := name, attrs := [], events := [], status := .unset, ended := false }

/-- Metric instrument kinds held by the meter. -/
inductive InstKind where
  | counter
  | gauge
deriving DecidableEq

/-- One value recorded through a meter instrument
(`instrument.Add` / `instrument.Record`). -/
structure MetricSub where
  name : String
  value : GoFloat
  attrs : List Attr
  kind : InstKind
deriving DecidableEq

/-- Observable world of the streaming backend: the span store (ids are list
positions), the ids queued for export by `span.End`, the structured-log
deliveries, the instrument-resolution calls made against the meter, and the
metric values submitted. -/
structure OtelWorld where
  spans : List OtelSpan
  exportQueue : List Nat
  logLines : List LogLine
  instruments : List (String × InstKind)
  metricSubs : List MetricSub
deriving DecidableEq

/-- The empty world: no spans, no submissions, no log deliveries. -/
def emptyOtelWorld : OtelWorld :=
  { spans := [], exportQueue := [], logLines := [], instruments := [], metricSubs := [] }

/-- A Go `context.Context` as used by this package: it may carry the otel
current span (set by `tracer.Start`) and the flat backend's synthetic span
value (key "appinsights_span"). -/
structure Ctx where
  otelSpan : Option Nat := none
  aiSpan : Option (String × Nat) := none
deriving DecidableEq

/-- Feature flags of the `OpenTelemetry` struct
(`telemetry/open_telemetry.go`). -/
structure OtelConfig where
  traceEnabled : Bool
  metricsEnabled : Bool
deriving DecidableEq

/-- Applies `f` to the span with id `i`, when it exists. -/
def modifySpan (w : OtelWorld) (i : Nat) (f : OtelSpan → OtelSpan) : OtelWorld :=
  match w.spans[i]? with
  | some s => { w with spans := w.spans.set i (f s) }
  | none => w

/-- `span.SetAttributes` on an SDK span: appended while the span is live,
dropped after `End`. -/
def spanSetAttributes (s : OtelSpan) (kvs : List Attr) : OtelSpan :=
  if s.ended then s else { s with attrs := s.attrs ++ kvs }

/-- `span.AddEvent` on an SDK span: recorded while live, dropped after
`End`. -/
def spanAddEvent (s : OtelSpan) (name : String) (kvs : List Attr) : OtelSpan :=
  if s.ended then s else { s with events := s.events ++ [(name, kvs)] }

/-- `span.SetStatus` on an SDK span: stores the code, keeping the description
only for the error code; ignored after `End`. -/
def spanSetStatus (s : OtelSpan) (code : StatusCode) (desc : String) : OtelSpan :=
  if s.ended then s
  else
    { s with status := match code with
        | .unset => .unset
        | .ok => .ok
        | .error => .error desc }

/-- `span.RecordError` on an SDK span: records the error as an exception
event carrying the supplied attributes and the error message. -/
def spanRecordError (s : OtelSpan) (errMsg : String) (kvs : List Attr) : OtelSpan :=
  spanAddEvent s "exception" (kvs ++ [("exception.message", .str errMsg)])

/-- `span.End` through the store: the first `End` marks the span ended and
queues exactly one export of it; later calls are ignored (otel SDK End-once
contract). -/
def endSpanId (w : OtelWorld) (i : Nat) : OtelWorld :=
  match w.spans[i]? with
  | some s =>
    if s.ended then w
    else { w with spans := w.spans.set i { s with ended := true },
                  exportQueue := w.exportQueue ++ [i] }
  | none => w

/-- `trace.SpanFromContext(ctx)` followed by `span.IsRecording()`: the id of
the context's current span when that span is live; `none` when the context
has no span (noop span, not recording) or the span has ended. -/
def ctxRecordingSpan (w : OtelWorld) (ctx : Ctx) : Option Nat :=
  match ctx.otelSpan with
  | none => none
  | some i =>
    match w.spans[i]? with
    | some s => if s.ended then none else some i
    | none => none

/-- `OpenTelemetry.StartSpan` (open_telemetry.go): when tracing is disabled it
returns the original context with a nil span; otherwise `tracer.Start`
creates a fresh recording span, stores it in the returned context and hands
back its handle. -/
def otStartSpan (cfg : OtelConfig) (w : OtelWorld) (ctx : Ctx) (name : String) :
    Ctx × Option Nat × OtelWorld :=
  if !cfg.traceEnabled then (ctx, none, w)
  else
    ({ ctx with otelSpan := some w.spans.length }, some w.spans.length,
      { w with spans := w.spans ++ [newOtelSpan name] })

/-- `OpenTelemetry.EndSpan` (open_telemetry.go): `span.End()` guarded by a nil
check. -/
def otEndSpan (w : OtelWorld) (h : Option Nat) : OtelWorld :=
  match h with
  | none => w
  | some i => endSpanId w i

/-- `OpenTelemetry.AddEvent` (open_telemetry.go): `span.AddEvent` guarded by a
nil check. -/
def otAddEvent (w : OtelWorld) (h : Option Nat) (name : String) (kvs : List Attr) : OtelWorld :=
  match h with
  | none => w
  | some i => modifySpan w i (fun s => spanAddEvent s name kvs)

/-- `span.SetAttributes` reached through a handle.  The embedded facade paths
only reach this with a non-nil handle (TrackRequest/TrackDependency after the
trace-enabled check), so the nil case is inert. -/
def otSetAttributes (w : OtelWorld) (h : Option Nat) (kvs : List Attr) : OtelWorld :=
  match h with
  | none => w
  | some i => modifySpan w i (fun s => spanSetAttributes s kvs)

/-- `span.SetStatus` reached through a handle. -/
def otSetSpanStatus (w : OtelWorld) (h : Option Nat) (code : StatusCode) (desc : String) :
    OtelWorld :=
  match h with
  | none => w
  | some i => modifySpan w i (fun s => spanSetStatus s code desc)

/-- `OpenTelemetry.RecordMetric` (open_telemetry.go): a no-op when metrics are
disabled; otherwise resolves a `Float64Counter` named instrument and adds the
value.  Instrument resolution is recorded in `instruments`; the error branch
of `Float64Counter` is unreachable in the model (creation is assumed to
succeed, as for the in-memory meter collaborator). -/
def otRecordMetric (cfg : OtelConfig) (w : OtelWorld) (ctx : Ctx) (name : String)
    (value : GoFloat) (kvs : List Attr) : OtelWorld :=
  if !cfg.metricsEnabled then w
  else
    { w with instruments := w.instruments ++ [(name, .counter)],
             metricSubs := w.metricSubs ++ [⟨name, value, kvs, .counter⟩] }

/-- `OpenTelemetry.IncrementCounter` (open_telemetry.go): delegates to
`RecordMetric`. -/
def otIncrementCounter (cfg : OtelConfig) (w : OtelWorld) (ctx : Ctx) (name : String)
    (increment : GoFloat) (kvs : List Attr) : OtelWorld :=
  otRecordMetric cfg w ctx name increment kvs

/-- `OpenTelemetry.RecordGauge` (open_telemetry.go): a no-op when metrics are
disabled; otherwise resolves a `Float64Gauge` instrument and records the
value. -/
def otRecordGauge (cfg : OtelConfig) (w : OtelWorld) (ctx : Ctx) (name : String)
    (value : GoFloat) (kvs : List Attr) : OtelWorld :=
  if !cfg.metricsEnabled then w
  else
    { w with instruments := w.instruments ++ [(name, .gauge)],
             metricSubs := w.metricSubs ++ [⟨name, value, kvs, .gauge⟩] }

/-- `OpenTelemetry.LogInfo` (open_telemetry.go): unconditionally delivers the
message to the structured logger. -/
def otLogInfo (w : OtelWorld) (ctx : Ctx) (msg : String) (kvs : List Attr) : OtelWorld :=
  { w with logLines := w.logLines ++ [.info msg kvs] }

/-- `OpenTelemetry.LogWarning` (open_telemetry.go): unconditionally delivers
the message to the structured logger. -/
def otLogWarning (w : OtelWorld) (ctx : Ctx) (msg : String) (kvs : List Attr) : OtelWorld :=
  { w with logLines := w.logLines ++ [.warn msg kvs] }

/-- `OpenTelemetry.RecordError` (open_telemetry.go): a no-op when tracing is
disabled or the error is nil; otherwise, when the context's current span is
recording, records the error as a span event and sets the span status to
error with the error's message. -/
def otRecordError (cfg : OtelConfig) (w : OtelWorld) (ctx : Ctx) (err : GoError)
    (kvs : List Attr) : OtelWorld :=
  if !cfg.traceEnabled then w
  else
    match err with
    | none => w
    | some e =>
      match ctxRecordingSpan w ctx with
      | none => w
      | some i => modifySpan w i (fun s => spanSetStatus (spanRecordError s e kvs) .error e)

/-- `OpenTelemetry.LogError` (open_telemetry.go): always delivers the message
and error to the structured logger, then runs `RecordError`. -/
def otLogError (cfg : OtelConfig) (w : OtelWorld) (ctx : Ctx) (msg : String) (err : GoError)
    (kvs : List Attr) : OtelWorld :=
  otRecordError cfg { w with logLines := w.logLines ++ [.error msg err kvs] } ctx err kvs

/-- `httpStatusToSpanStatus` (open_telemetry.go): codes of 400 and above map
to `(codes.Error, "HTTP <code>")`, lower codes to `(codes.Ok, "")`. -/
def httpStatusToSpanStatus (statusCode : Int) : StatusCode × String :=
  if 400 ≤ statusCode then (.error, "HTTP " ++ toString statusCode)
  else (.ok, "")

/-- `OpenTelemetry.TrackRequest` (open_telemetry.go): a no-op when tracing is
disabled; otherwise opens the span "HTTP Request", sets the method, url and
status-code attributes, sets the status from `httpStatusToSpanStatus`, sets
the duration attribute and ends the span (the deferred `EndSpan` runs
last). -/
def otTrackRequest (cfg : OtelConfig) (w : OtelWorld) (ctx : Ctx) (method url : String)
    (durationNs : Int) (statusCode : Int) : OtelWorld :=
  if !cfg.traceEnabled then w
  else
    let started := otStartSpan cfg w ctx "HTTP Request"
    let h := started.2.1
    let w1 := started.2.2
    let w2 := otSetAttributes w1 h
      [("http.method", .str method), ("http.url", .str url),
       ("http.status_code", .int statusCode)]
    let st := httpStatusToSpanStatus statusCode
    let w3 := otSetSpanStatus w2 h st.1 st.2
    let w4 := otSetAttributes w3 h [("http.duration_ms", .int (durationMilliseconds durationNs))]
    otEndSpan w4 h

/-- A constructed SDK provider, abstracted to the outcome its `Shutdown`
reports when invoked. -/
structure Provider where
  shutdownErr : GoError
deriving DecidableEq

/-- The provider fields of the `OpenTelemetry` struct: nil when the matching
feature was disabled at construction. -/
structure OtelProviders where
  traceProvider : Option Provider
  meterProvider : Option Provider
deriving DecidableEq

/-- Rendering of a Go error by `fmt` `%v`: nil prints as `<nil>`. -/
def goErrString : GoError → String
  | none => "<nil>"
  | some e => e

/-- Outcome of `OpenTelemetry.Shutdown`: which providers received a shutdown
attempt, and the returned (possibly aggregated) error. -/
structure ShutdownResult where
  traceAttempted : Bool
  meterAttempted : Bool
  err : GoError
deriving DecidableEq

/-- `OpenTelemetry.Shutdown` (open_telemetry.go): shuts down the trace
provider when present, then the meter provider when present regardless of the
first outcome; a meter failure is wrapped together with the trace outcome
into one aggregated error (`fmt.Errorf("trace: %v, metric: %w", ...)`). -/
def otShutdown (p : OtelProviders) : ShutdownResult :=
  let traceStep :=
    match p.traceProvider with
    | none => (false, (none : GoError))
    | some tp => (true, tp.shutdownErr)
  match p.meterProvider with
  | none => { traceAttempted := traceStep.1, meterAttempted := false, err := traceStep.2 }
  | some mp =>
    match mp.shutdownErr with
    | none => { traceAttempted := traceStep.1, meterAttempted := true, err := traceStep.2 }
    | some m =>
      { traceAttempted := traceStep.1, meterAttempted := true,
        err := some ("trace: " ++ goErrString traceStep.2 ++ ", metric: " ++ m) }

/-- Go runtime faults observable from the embedded code paths. -/
inductive GoPanic where
  | nilPointerDereference
deriving DecidableEq

/-- The provider fields stored by `newOpenTelemetry` (opentelemetry.go): the
`tp :=` and `mp :=` inside the two `if` blocks shadow the outer `var tp`/`var
mp`, so the struct always receives nil providers regardless of the enabled
flags. -/
def newOpenTelemetryV2Providers (traceEnabled metricsEnabled : Bool) : OtelProviders :=
  { traceProvider := none, meterProvider := none }

/-- `OpenTelemetry.Shutdown` (opentelemetry.go): calls
`o.traceProvider.Shutdown(ctx)` and `o.meterProvider.Shutdown(ctx)` with no
nil checks; the SDK method dereferences its receiver, so a nil provider
panics.  Failures are logged, not returned. -/
def o2Shutdown (p : OtelProviders) : Except GoPanic Unit :=
  match p.traceProvider with
  | none => .error .nilPointerDereference
  | some _ =>
    match p.meterProvider with
    | none => .error .nilPointerDereference
    | some _ => .ok ()

/-- `OpenTelemetry.RecordGauge` (opentelemetry.go): unlike `RecordMetric` in
the same file, it has no metrics-enabled gate — it always resolves a gauge
instrument and records the value. -/
def o2RecordGauge (cfg : OtelConfig) (w : OtelWorld) (ctx : Ctx) (name : String)
    (value : GoFloat) (kvs : List Attr) : OtelWorld :=
  { w with instruments := w.instruments ++ [(name, .gauge)],
           metricSubs := w.metricSubs ++ [⟨name, value, kvs, .gauge⟩] }

/-- Severity levels of AppInsights trace telemetry
(`appinsights/contracts`). -/
inductive AiSeverity where
  | information
  | warning
  | error
deriving DecidableEq

/-- One telemetry item pushed through `client.Track` on the AppInsights
channel. -/
inductive AiItem where
  | event (name : String) (props : List (String × String))
  | metric (name : String) (value : GoFloat)
  | traceMsg (message : String) (severity : AiSeverity) (props : List (String × String))
  | request (method url : String) (durationNs : Int) (responseCode : String)
  | dependency (dependencyType target : String) (durationNs : Int) (success : Bool)
deriving DecidableEq

/-- Observable world of the flat backend: the items submitted to the
AppInsights transport and the structured-log deliveries (the flat backend's
operation methods never write to the structured logger, but the field makes
that statable). -/
structure AiWorld where
  tracked : List AiItem
  logLines : List LogLine
deriving DecidableEq

/-- The empty flat-backend world. -/
def emptyAiWorld : AiWorld := { tracked := [], logLines := [] }

/-- The `AppInsightsTelemetry` struct fields (src/unnamed/part_002). -/
structure AiConfig where
  iKey : String
  hostname : String
  serviceName : String
  traceEnabled : Bool
  telemetryEnabled : Bool
deriving DecidableEq

/-- The handle type the flat backend trades in: either the nil interface
value, or a `*appInsightsSpan` carrying a name and start time (nanoseconds).
A non-AppInsights span would fail the type assertion in `EndSpan` just as the
nil handle does. -/
inductive AiHandle where
  | nilHandle
  | span (name : String) (startTimeNs : Nat)
deriving DecidableEq

/-- Converts otel attributes to AppInsights string properties
(`attr.Value.Emit()`). -/
def attrsToProps (kvs : List Attr) : List (String × String) :=
  kvs.map (fun kv => (kv.1, attrValueEmit kv.2))

/-- `AppInsightsTelemetry.PostMetrics`: submits one metric item when
telemetry is enabled (dispatched on a goroutine; delivered exactly once). -/
def aiPostMetrics (cfg : AiConfig) (w : AiWorld) (name : String) (value : GoFloat) : AiWorld :=
  if cfg.telemetryEnabled then { w with tracked := w.tracked ++ [.metric name value] }
  else w

/-- `AppInsightsTelemetry.PostEvent`: submits one event item when telemetry
is enabled. -/
def aiPostEvent (cfg : AiConfig) (w : AiWorld) (name : String)
    (props : List (String × String)) : AiWorld :=
  if cfg.telemetryEnabled then { w with tracked := w.tracked ++ [.event name props] }
  else w

/-- `AppInsightsTelemetry.PostTrace`: submits one trace item, with the
message prefixed by service name and hostname, only when trace-enabled AND
telemetry-enabled are both true.  It never writes to the structured logger. -/
def aiPostTrace (cfg : AiConfig) (w : AiWorld) (message : String) (severity : AiSeverity)
    (props : List (String × String)) : AiWorld :=
  if cfg.traceEnabled && cfg.telemetryEnabled then
    { w with tracked := w.tracked ++
        [.traceMsg (cfg.serviceName ++ "_" ++ cfg.hostname ++ "_" ++ message) severity props] }
  else w

/-- `AppInsightsTelemetry.StartSpan`: always builds a synthetic
`appInsightsSpan` from the name and the current time, stores it in the
returned context under "appinsights_span" and hands it back — the enabled
flags are not consulted. -/
def aiStartSpan (cfg : AiConfig) (ctx : Ctx) (name : String) (nowNs : Nat) : Ctx × AiHandle :=
  ({ ctx with aiSpan := some (name, nowNs) }, .span name nowNs)

/-- `AppInsightsTelemetry.EndSpan`: when the handle is a synthetic span,
computes the elapsed time and posts one completed event; the nil handle (or a
foreign span) fails the type assertion and nothing happens.  The synthetic
span carries no closed flag, so every call re-posts. -/
def aiEndSpan (cfg : AiConfig) (w : AiWorld) (h : AiHandle) (nowNs : Nat) : AiWorld :=
  match h with
  | .nilHandle => w
  | .span name startTimeNs =>
    aiPostEvent cfg w name
      [("duration_ms", toString ((nowNs - startTimeNs) / 1000000))]

/-- `AppInsightsTelemetry.AddEvent`: ignores the handle and posts one event
built from the attributes. -/
def aiAddEvent (cfg : AiConfig) (w : AiWorld) (h : AiHandle) (name : String)
    (kvs : List Attr) : AiWorld :=
  aiPostEvent cfg w name (attrsToProps kvs)

/-- `AppInsightsTelemetry.RecordMetric`: posts the named metric, then one
additional metric per attribute under `name.key` with the attribute value
read as float64. -/
def aiRecordMetric (cfg : AiConfig) (w : AiWorld) (ctx : Ctx) (name : String)
    (value : GoFloat) (kvs : List Attr) : AiWorld :=
  kvs.foldl
    (fun acc kv => aiPostMetrics cfg acc (name ++ "." ++ kv.1) (attrValueAsFloat64 kv.2))
    (aiPostMetrics cfg w name value)

/-- `AppInsightsTelemetry.IncrementCounter`: delegates to `RecordMetric`. -/
def aiIncrementCounter (cfg : AiConfig) (w : AiWorld) (ctx : Ctx) (name : String)
    (increment : GoFloat) (kvs : List Attr) : AiWorld :=
  aiRecordMetric cfg w ctx name increment kvs

/-- `AppInsightsTelemetry.RecordGauge`: delegates to `RecordMetric`. -/
def aiRecordGauge (cfg : AiConfig) (w : AiWorld) (ctx : Ctx) (name : String)
    (value : GoFloat) (kvs : List Attr) : AiWorld :=
  aiRecordMetric cfg w ctx name value kvs

/-- `AppInsightsTelemetry.LogInfo`: converts the attributes to properties and
posts an information trace item — it does not call the structured logger. -/
def aiLogInfo (cfg : AiConfig) (w : AiWorld) (ctx : Ctx) (msg : String)
    (kvs : List Attr) : AiWorld :=
  aiPostTrace cfg w msg .information (attrsToProps kvs)

/-- `AppInsightsTelemetry.LogWarning`: posts a warning trace item. -/
def aiLogWarning (cfg : AiConfig) (w : AiWorld) (ctx : Ctx) (msg : String)
    (kvs : List Attr) : AiWorld :=
  aiPostTrace cfg w msg .warning (attrsToProps kvs)

/-- `AppInsightsTelemetry.LogError`: adds the error message under the "error"
property and posts an error trace item (the source dereferences `err`, so the
error is modelled non-nil). -/
def aiLogError (cfg : AiConfig) (w : AiWorld) (ctx : Ctx) (msg : String) (errMsg : String)
    (kvs : List Attr) : AiWorld :=
  aiPostTrace cfg w msg .error (attrsToProps kvs ++ [("error", errMsg)])

/-- `AppInsightsTelemetry.TrackRequest`: submits one request item when
telemetry is enabled. -/
def aiTrackRequest (cfg : AiConfig) (w : AiWorld) (ctx : Ctx) (method url : String)
    (durationNs : Int) (responseCode : String) : AiWorld :=
  if cfg.telemetryEnabled then
    { w with tracked := w.tracked ++ [.request method url durationNs responseCode] }
  else w

/-- Environment-variable bindings; `os.Getenv` yields the empty string for an
unset variable. -/
abbrev Env := List (String × String)

/-- `os.Getenv`. -/
def getenv (env : Env) (k : String) : String := (env.lookup k).getD ""

/-- The backend selector values. -/
inductive TelemetryType where
  | opentelemetry
  | appinsights
deriving DecidableEq

/-- Models `strings.ToLower` from the Go standard library, character by
character (the ASCII mapping suffices for every selector value involved). -/
def goToLower (s : String) : String := ⟨s.data.map Char.toLower⟩

/-- `getTelemetryType` (src/unnamed/part_002 and Interface.go): empty selector
defaults to OpenTelemetry; otherwise the value is lowercased and matched,
with unrecognized values also defaulting to OpenTelemetry. -/
def getTelemetryType (env : Env) : TelemetryType :=
  let telemetryType := getenv env "TELEMETRY_TYPE"
  if telemetryType = "" then .opentelemetry
  else
    match goToLower telemetryType with
    | "opentelemetry" | "otel" => .opentelemetry
    | "appinsights" | "applicationinsights" => .appinsights
    | _ => .opentelemetry

/-- The configuration snapshot the OpenTelemetry construction path resolves
from the environment. -/
structure OtelResolvedConfig where
  serviceName : String
  traceEnabled : Bool
  metricsEnabled : Bool
  traceEndpoint : String
  metricEndpoint : String
deriving DecidableEq

/-- The service-name defaulting performed on the OpenTelemetry construction
path (Interface.go and src/unnamed/part_002). -/
def resolveServiceName (env : Env) : String :=
  let s := getenv env "SERVICE_NAME"
  if s = "" then "unknown-service" else s

/-- The OTel flag and endpoint resolution shared by both `NewTelemetry`
versions. -/
def resolveOtelConfig (env : Env) : OtelResolvedConfig :=
  { serviceName := resolveServiceName env
    traceEnabled := getenv env "OTEL_TRACE_ENABLED" = "true"
    metricsEnabled := getenv env "OTEL_METRICS_ENABLED" = "true"
    traceEndpoint := getenv env "OTEL_EXPORTER_OTLP_TRACES_ENDPOINT"
    metricEndpoint := getenv env "OTEL_EXPORTER_OTLP_METRICS_ENDPOINT" }

/-- `NewTelemetry` (telemetry/Interface.go): switches on the RAW selector
value; only "opentelemetry", "otel" and the empty string construct a backend,
every other value — including "appinsights" or differently-cased spellings —
returns the `unknown telemetry type` error.  (Exporter construction failures
of the network collaborator are not modelled.) -/
def newTelemetryIface (env : Env) : Except String OtelResolvedConfig :=
  let telemetryType := getenv env "TELEMETRY_TYPE"
  if telemetryType = "opentelemetry" ∨ telemetryType = "otel" ∨ telemetryType = "" then
    .ok (resolveOtelConfig env)
  else .error ("unknown telemetry type: " ++ telemetryType)

/-- `strconv.ParseBool` with the error discarded (`v, _ :=`): accepted true
spellings yield true, everything else leaves the zero value false. -/
def goParseBoolOrFalse (s : String) : Bool :=
  match s with
  | "1" | "t" | "T" | "true" | "TRUE" | "True" => true
  | _ => false

/-- The built-in fallback instrumentation key (src/unnamed/part_002). -/
def APPINSIGHTS_INSTRUMENTATIONKEY_DEFAULT : String :=
  "6b57af63-7a39-4834-9d3d-405ddb07a51a"

/-- `newAppInsightsTelemetry` (src/unnamed/part_002): falls back to the
built-in instrumentation key, to hostname "unkw" on an `os.Hostname` failure
(the resolved hostname is passed in), and — unlike the OTel path — to service
name "Melina" when SERVICE_NAME is unset. -/
def newAppInsightsTelemetry (env : Env) (hostname : String) : AiConfig :=
  { iKey :=
      let k := getenv env "APPINSIGHTS_INSTRUMENTATIONKEY"
      if k = "" then APPINSIGHTS_INSTRUMENTATIONKEY_DEFAULT else k
    hostname := hostname
    serviceName :=
      let s := getenv env "SERVICE_NAME"
      if s = "" then "Melina" else s
    traceEnabled := goParseBoolOrFalse (getenv env "APPINSIGHTS_TRACE_ENABLED")
    telemetryEnabled := goParseBoolOrFalse (getenv env "APPINSIGHTS_ENABLED") }

/-- The backend resolved by the combined `NewTelemetry`
(src/unnamed/part_002). -/
inductive ResolvedBackend where
  | streaming (cfg : OtelResolvedConfig)
  | flat (cfg : AiConfig)
deriving DecidableEq

/-- `NewTelemetry` (src/unnamed/part_002): dispatches on `getTelemetryType`,
whose two possible results both construct a backend; the `unknown telemetry
type` default branch of the Go switch is unreachable, so the function is
total into `.ok`. -/
def newTelemetryCombined (env : Env) (hostname : String) : Except String ResolvedBackend :=
  match getTelemetryType env with
  | .opentelemetry => .ok (.streaming (resolveOtelConfig env))
  | .appinsights => .ok (.flat (newAppInsightsTelemetry env hostname))

/-! ## Helper lemmas -/

/-- Setting the freshly appended last element of a list rewrites that
element. -/
theorem set_append_singleton {α : Type} (l : List α) (a b : α) :
    (l ++ [a]).set l.length b = l ++ [b] := by
  induction l with
  | nil => rfl
  | cons x xs ih => simp [ih]

/-- `modifySpan` never touches the structured-log deliveries. -/
theorem modifySpan_logLines (w : OtelWorld) (i : Nat) (f : OtelSpan → OtelSpan) :
    (modifySpan w i f).logLines = w.logLines := by
  unfold modifySpan
  cases w.spans[i]? <;> rfl

/-- `modifySpan` never touches the metric submissions. -/
theorem modifySpan_metricSubs (w : OtelWorld) (i : Nat) (f : OtelSpan → OtelSpan) :
    (modifySpan w i f).metricSubs = w.metricSubs := by
  unfold modifySpan
  cases w.spans[i]? <;> rfl

/-- `otRecordError` never touches the structured-log deliveries. -/
theorem otRecordError_logLines (cfg : OtelConfig) (w : OtelWorld) (ctx : Ctx) (err : GoError)
    (kvs : List Attr) : (otRecordError cfg w ctx err kvs).logLines = w.logLines := by
  unfold otRecordError
  cases err with
  | none => cases cfg.traceEnabled <;> rfl
  | some e =>
    cases cfg.traceEnabled with
    | false => rfl
    | true =>
      simp only [Bool.not_true, if_neg]
      cases ctxRecordingSpan w ctx with
      | none => rfl
      | some i => exact modifySpan_logLines _ i _

/-! ## Claim theorems -/

/-- C10: On both backends, `IncrementCounter` delegates directly to
`RecordMetric`, so the two calls are extensionally equal for every state and
argument list. -/
theorem c10_incrementCounter_eq_recordMetric :
    (∀ (cfg : OtelConfig) (w : OtelWorld) (ctx : Ctx) (name : String) (v : GoFloat)
      (kvs : List Attr),
      otIncrementCounter cfg w ctx name v kvs = otRecordMetric cfg w ctx name v kvs) ∧
    (∀ (cfg : AiConfig) (w : AiWorld) (ctx : Ctx) (name : String) (v : GoFloat)
      (kvs : List Attr),
      aiIncrementCounter cfg w ctx name v kvs = aiRecordMetric cfg w ctx name v kvs) :=
  ⟨fun _ _ _ _ _ _ => rfl, fun _ _ _ _ _ _ => rfl⟩

/-- C7: In `open_telemetry.go`, `RecordMetric`, `IncrementCounter` and
`RecordGauge` are complete no-ops when metrics are disabled — no instrument
resolution, no submission.  In the near-duplicate `opentelemetry.go`,
however, `RecordGauge` lacks the metrics-enabled gate: evaluated at the
failing input (metrics disabled, `RecordGauge(ctx, "queue.size", 42)`) it
still resolves a gauge instrument and records the value. -/
theorem c7_metrics_disabled_gate_and_gauge_bug :
    (∀ (te : Bool) (w : OtelWorld) (ctx : Ctx) (name : String) (v : GoFloat)
      (kvs : List Attr),
      otRecordMetric { traceEnabled := te, metricsEnabled := false } w ctx name v kvs = w ∧
      otIncrementCounter { traceEnabled := te, metricsEnabled := false } w ctx name v kvs = w ∧
      otRecordGauge { traceEnabled := te, metricsEnabled := false } w ctx name v kvs = w) ∧
    ((o2RecordGauge { traceEnabled := false, metricsEnabled := false } emptyOtelWorld {}
        "queue.size" 42 []).instruments = [("queue.size", .gauge)] ∧
      (o2RecordGauge { traceEnabled := false, metricsEnabled := false } emptyOtelWorld {}
        "queue.size" 42 []).metricSubs = [⟨"queue.size", 42, [], .gauge⟩]) := by
  refine ⟨fun te w ctx name v kvs => ⟨?_, ?_, ?_⟩, rfl, rfl⟩ <;>
    simp [otRecordMetric, otIncrementCounter, otRecordGauge]

/-- C6: The `open_telemetry.go` `Shutdown` attempts every owned provider
(the meter provider is attempted regardless of the trace provider's outcome),
aggregates a trace failure and a meter failure into one returned error, and
returns cleanly when no provider was ever created.  The near-duplicate
`opentelemetry.go` `Shutdown`, evaluated at the failing input (the struct its
own `newOpenTelemetry` builds, whose shadowed `tp :=`/`mp :=` leave both
provider fields nil), dereferences a nil provider and panics for every flag
combination. -/
theorem c6_shutdown_aggregation_and_v2_panic :
    (∀ p : OtelProviders,
      (otShutdown p).traceAttempted = p.traceProvider.isSome ∧
      (otShutdown p).meterAttempted = p.meterProvider.isSome) ∧
    otShutdown { traceProvider := none, meterProvider := none } =
      { traceAttempted := false, meterAttempted := false, err := none } ∧
    (∀ e m : String,
      otShutdown { traceProvider := some ⟨some e⟩, meterProvider := some ⟨some m⟩ } =
        { traceAttempted := true, meterAttempted := true,
          err := some ("trace: " ++ e ++ ", metric: " ++ m) }) ∧
    (∀ te me : Bool,
      o2Shutdown (newOpenTelemetryV2Providers te me) = .error .nilPointerDereference) := by
  refine ⟨fun p => ?_, rfl, fun e m => rfl, fun te me => rfl⟩
  obtain ⟨tp, mp⟩ := p
  cases tp <;> cases mp <;> simp [otShutdown] <;> rename_i mp <;> cases h : mp.shutdownErr <;> simp

/-- C1 counterexample: with the flat (AppInsights) backend active and
trace-enabled false, `StartSpan` does not return the original context with a
nil handle — it returns a synthetic non-nil span and an augmented context,
and a later `EndSpan` on that handle produces a transport submission. -/
theorem c1_counterexample :
    (aiStartSpan
        { iKey := "k", hostname := "h", serviceName := "svc",
          traceEnabled := false, telemetryEnabled := true } {} "op" 0).2 ≠
      AiHandle.nilHandle ∧
    (aiStartSpan
        { iKey := "k", hostname := "h", serviceName := "svc",
          traceEnabled := false, telemetryEnabled := true } {} "op" 0).1 ≠ ({} : Ctx) ∧
    (aiEndSpan
        { iKey := "k", hostname := "h", serviceName := "svc",
          traceEnabled := false, telemetryEnabled := true } emptyAiWorld
        (AiHandle.span "op" 0) 5000000).tracked.length = 1 := by
  refine ⟨?_, ?_, rfl⟩ <;> decide

/-- C1 (amended): On the streaming backend with trace-enabled false,
`StartSpan` returns the original context together with a nil handle, and
`EndSpan` and `AddEvent` on a nil handle are safe no-ops producing zero
transport submissions; the flat backend's `StartSpan` ignores the
trace-enabled flag and always returns a non-nil synthetic handle and a
context carrying it. -/
theorem c1_disabled_startSpan_noop :
    (∀ (me : Bool) (w : OtelWorld) (ctx : Ctx) (name : String),
      otStartSpan { traceEnabled := false, metricsEnabled := me } w ctx name = (ctx, none, w)) ∧
    (∀ w : OtelWorld, otEndSpan w none = w) ∧
    (∀ (w : OtelWorld) (name : String) (kvs : List Attr), otAddEvent w none name kvs = w) ∧
    (∀ (cfg : AiConfig) (ctx : Ctx) (name : String) (now : Nat),
      (aiStartSpan cfg ctx name now).2 ≠ AiHandle.nilHandle ∧
      (aiStartSpan cfg ctx name now).1 = { ctx with aiSpan := some (name, now) }) := by
  refine ⟨fun me w ctx name => ?_, fun w => rfl, fun w name kvs => rfl,
    fun cfg ctx name now => ⟨?_, rfl⟩⟩
  · simp [otStartSpan]
  · simp [aiStartSpan]

/-- C2 counterexample: on the flat backend with telemetry enabled, closing
the same synthetic handle twice submits a second telemetry item (one event
per close), contradicting the claim that double-close never submits a second
item. -/
theorem c2_counterexample :
    (aiEndSpan
        { iKey := "k", hostname := "h", serviceName := "svc",
          traceEnabled := true, telemetryEnabled := true } emptyAiWorld
        (AiHandle.span "op" 0) 5000000).tracked.length = 1 ∧
    (aiEndSpan
        { iKey := "k", hostname := "h", serviceName := "svc",
          traceEnabled := true, telemetryEnabled := true }
        (aiEndSpan
          { iKey := "k", hostname := "h", serviceName := "svc",
            traceEnabled := true, telemetryEnabled := true } emptyAiWorld
          (AiHandle.span "op" 0) 5000000)
        (AiHandle.span "op" 0) 7000000).tracked.length = 2 := ⟨rfl, rfl⟩

/-- C2 (amended): Closing a nil handle is a no-op on both backends, and on
the streaming backend ending the same span a second time is a no-op that
queues no second export; on the flat backend, every `EndSpan` of a synthetic
handle submits another completed event whenever telemetry is enabled, so
double-close submits a second telemetry item. -/
theorem c2_endSpan_idempotence :
    (∀ w : OtelWorld, otEndSpan w none = w) ∧
    (∀ (w : OtelWorld) (i : Nat),
      otEndSpan (otEndSpan w (some i)) (some i) = otEndSpan w (some i)) ∧
    (∀ (cfg : AiConfig) (w : AiWorld) (t : Nat), aiEndSpan cfg w .nilHandle t = w) ∧
    (∀ (k hn sn : String) (te : Bool) (w : AiWorld) (n : String) (st t1 t2 : Nat),
      (aiEndSpan
        { iKey := k, hostname := hn, serviceName := sn,
          traceEnabled := te, telemetryEnabled := true }
        (aiEndSpan
          { iKey := k, hostname := hn, serviceName := sn,
            traceEnabled := te, telemetryEnabled := true } w (.span n st) t1)
        (.span n st) t2).tracked.length = w.tracked.length + 2) := by
  refine ⟨fun w => rfl, fun w i => ?_, fun cfg w t => rfl, fun k hn sn te w n st t1 t2 => ?_⟩
  · show endSpanId (endSpanId w i) i = endSpanId w i
    unfold endSpanId
    cases hg : w.spans[i]? with
    | none => simp [hg]
    | some s =>
      by_cases he : s.ended
      · simp [hg, he]
      · have hlen : i < w.spans.length := (List.getElem?_eq_some_iff.mp hg).1
        simp [hg, he, List.getElem?_set_self hlen]
  · simp [aiEndSpan, aiPostEvent]

/-- C3 counterexample: on the flat (AppInsights) backend, `LogError` never
reaches the structured-logging collaborator.  With both flags false the call
delivers the message nowhere at all (the world is unchanged), and even with
both flags true the structured-log deliveries stay empty — the item goes to
the AppInsights transport instead. -/
theorem c3_counterexample :
    aiLogError
      { iKey := "k", hostname := "h", serviceName := "svc",
        traceEnabled := false, telemetryEnabled := false }
      emptyAiWorld {} "failed" "boom" [] = emptyAiWorld ∧
    (aiLogError
      { iKey := "k", hostname := "h", serviceName := "svc",
        traceEnabled := true, telemetryEnabled := true }
      emptyAiWorld {} "failed" "boom" []).logLines = [] := ⟨rfl, rfl⟩

/-- C3 (amended): On the streaming backend, `LogInfo`, `LogWarning` and
`LogError` always deliver the message to the structured-logging collaborator
regardless of the enabled flags.  On the flat backend these calls never touch
the structured logger: they are converted to AppInsights trace telemetry,
submitted only when trace-enabled and telemetry-enabled are both true and
dropped entirely otherwise. -/
theorem c3_logging_delivery :
    (∀ (w : OtelWorld) (ctx : Ctx) (msg : String) (kvs : List Attr),
      (otLogInfo w ctx msg kvs).logLines = w.logLines ++ [.info msg kvs] ∧
      (otLogWarning w ctx msg kvs).logLines = w.logLines ++ [.warn msg kvs]) ∧
    (∀ (cfg : OtelConfig) (w : OtelWorld) (ctx : Ctx) (msg : String) (err : GoError)
      (kvs : List Attr),
      (otLogError cfg w ctx msg err kvs).logLines = w.logLines ++ [.error msg err kvs]) ∧
    (∀ (cfg : AiConfig) (w : AiWorld) (ctx : Ctx) (msg e : String) (kvs : List Attr),
      (aiLogInfo cfg w ctx msg kvs).logLines = w.logLines ∧
      (aiLogWarning cfg w ctx msg kvs).logLines = w.logLines ∧
      (aiLogError cfg w ctx msg e kvs).logLines = w.logLines) ∧
    (∀ (k hn sn : String) (w : AiWorld) (ctx : Ctx) (msg : String) (kvs : List Attr),
      (aiLogInfo
        { iKey := k, hostname := hn, serviceName := sn,
          traceEnabled := true, telemetryEnabled := true } w ctx msg kvs).tracked =
        w.tracked ++ [.traceMsg (sn ++ "_" ++ hn ++ "_" ++ msg) .information (attrsToProps kvs)]) ∧
    (∀ (k hn sn : String) (te : Bool) (w : AiWorld) (ctx : Ctx) (msg : String)
      (kvs : List Attr),
      aiLogInfo
        { iKey := k, hostname := hn, serviceName := sn,
          traceEnabled := te, telemetryEnabled := false } w ctx msg kvs = w ∧
      aiLogInfo
        { iKey := k, hostname := hn, serviceName := sn,
          traceEnabled := false, telemetryEnabled := te } w ctx msg kvs = w) := by
  refine ⟨fun w ctx msg kvs => ⟨rfl, rfl⟩, fun cfg w ctx msg err kvs => ?_,
    fun cfg w ctx msg e kvs => ⟨?_, ?_, ?_⟩, fun k hn sn w ctx msg kvs => ?_,
    fun k hn sn te w ctx msg kvs => ⟨?_, ?_⟩⟩
  · exact otRecordError_logLines cfg _ ctx err kvs
  · unfold aiLogInfo aiPostTrace
    cases h : cfg.traceEnabled && cfg.telemetryEnabled <;> rfl
  · unfold aiLogWarning aiPostTrace
    cases h : cfg.traceEnabled && cfg.telemetryEnabled <;> rfl
  · unfold aiLogError aiPostTrace
    cases h : cfg.traceEnabled && cfg.telemetryEnabled <;> rfl
  · simp [aiLogInfo, aiPostTrace]
  · simp [aiLogInfo, aiPostTrace]
  · simp [aiLogInfo, aiPostTrace]

/-- C4 counterexample: with the streaming backend active and trace-enabled
false, `TrackRequest("GET", "/x", 150ms, 200)` produces zero telemetry items
(the world is unchanged), contradicting the claim that every call produces
exactly one item regardless of backend. -/
theorem c4_counterexample :
    otTrackRequest { traceEnabled := false, metricsEnabled := true } emptyOtelWorld {}
      "GET" "/x" 150000000 200 = emptyOtelWorld := rfl

/-- C4 (amended): On the streaming backend with trace-enabled true, every
`TrackRequest` call produces exactly one telemetry item: one new span named
"HTTP Request" queued for export exactly once, carrying the method, url,
status-code and duration attributes, with status Ok for status codes below
400 and the explicit error status "HTTP code" for 400 and above; with
trace-enabled false the call produces zero items.  On the flat backend one
request item is submitted per call when telemetry-enabled is true, and zero
otherwise. -/
theorem c4_trackRequest_one_item :
    (∀ (me : Bool) (w : OtelWorld) (ctx : Ctx) (m u : String) (d c : Int),
      (otTrackRequest { traceEnabled := true, metricsEnabled := me } w ctx m u d c).spans =
        w.spans ++
          [{ name := "HTTP Request",
             attrs := [("http.method", .str m), ("http.url", .str u),
                       ("http.status_code", .int c),
                       ("http.duration_ms", .int (durationMilliseconds d))],
             events := [],
             status := if 400 ≤ c then .error ("HTTP " ++ toString c) else .ok,
             ended := true }] ∧
      (otTrackRequest { traceEnabled := true, metricsEnabled := me } w ctx m u d c).exportQueue =
        w.exportQueue ++ [w.spans.length] ∧
      (otTrackRequest { traceEnabled := true, metricsEnabled := me } w ctx m u d c).metricSubs =
        w.metricSubs ∧
      (otTrackRequest { traceEnabled := true, metricsEnabled := me } w ctx m u d c).logLines =
        w.logLines) ∧
    (∀ (me : Bool) (w : OtelWorld) (ctx : Ctx) (m u : String) (d c : Int),
      otTrackRequest { traceEnabled := false, metricsEnabled := me } w ctx m u d c = w) ∧
    (∀ (k hn sn : String) (te : Bool) (w : AiWorld) (ctx : Ctx) (m u : String) (d : Int)
      (rc : String),
      (aiTrackRequest
        { iKey := k, hostname := hn, serviceName := sn,
          traceEnabled := te, telemetryEnabled := true } w ctx m u d rc).tracked =
        w.tracked ++ [.request m u d rc] ∧
      aiTrackRequest
        { iKey := k, hostname := hn, serviceName := sn,
          traceEnabled := te, telemetryEnabled := false } w ctx m u d rc = w) := by
  refine ⟨fun me w ctx m u d c => ?_, fun me w ctx m u d c => ?_,
    fun k hn sn te w ctx m u d rc => ⟨?_, ?_⟩⟩
  · have hget : (w.spans ++ [newOtelSpan "HTTP Request"])[w.spans.length]? =
      some (newOtelSpan "HTTP Request") := List.getElem?_concat_length _ _
    by_cases hc : (400 : Int) ≤ c <;>
      simp [otTrackRequest, otStartSpan, otSetAttributes, otSetSpanStatus, otEndSpan,
        modifySpan, endSpanId, spanSetAttributes, spanSetStatus, newOtelSpan,
        httpStatusToSpanStatus, hc, List.getElem?_concat_length, set_append_singleton]
  · simp [otTrackRequest]
  · simp [aiTrackRequest]
  · simp [aiTrackRequest]

/-- C5 counterexample: `NewTelemetry` in `telemetry/Interface.go` switches on
the raw selector, so even the recognized (differently routed) value
"appinsights" makes it return the `unknown telemetry type` error — it does
not fall back to the streaming backend. -/
theorem c5_counterexample :
    newTelemetryIface [("TELEMETRY_TYPE", "appinsights")] =
      .error "unknown telemetry type: appinsights" := rfl

/-- C5 (amended): `getTelemetryType` resolves every unrecognized selector to
the streaming backend, and the combined `NewTelemetry` (src/unnamed/part_002)
never returns an `unknown telemetry type` error for any environment; the
near-duplicate `NewTelemetry` in `telemetry/Interface.go`, however, returns
an `unknown telemetry type` error for every selector outside the empty
string, "opentelemetry" and "otel". -/
theorem c5_selector_resolution (env : Env) (hostname : String)
    (h1 : goToLower (getenv env "TELEMETRY_TYPE") ≠ "appinsights")
    (h2 : goToLower (getenv env "TELEMETRY_TYPE") ≠ "applicationinsights")
    (h3 : getenv env "TELEMETRY_TYPE" ≠ "opentelemetry")
    (h4 : getenv env "TELEMETRY_TYPE" ≠ "otel")
    (h5 : getenv env "TELEMETRY_TYPE" ≠ "") :
    getTelemetryType env = .opentelemetry ∧
    newTelemetryCombined env hostname = .ok (.streaming (resolveOtelConfig env)) ∧
    (∀ (env2 : Env) (hn2 : String), ∃ b, newTelemetryCombined env2 hn2 = .ok b) ∧
    newTelemetryIface env = .error ("unknown telemetry type: " ++ getenv env "TELEMETRY_TYPE") := by
  have hty : getTelemetryType env = .opentelemetry := by
    simp only [getTelemetryType]
    rw [if_neg h5]
    split <;> simp_all
  refine ⟨hty, ?_, ?_, ?_⟩
  · unfold newTelemetryCombined
    rw [hty]
  · intro env2 hn2
    unfold newTelemetryCombined
    cases getTelemetryType env2 <;> exact ⟨_, rfl⟩
  · simp only [newTelemetryIface]
    rw [if_neg (fun hcon => hcon.elim h3 (fun hcon2 => hcon2.elim h4 h5))]

/-- C5 witness: the hypotheses of `c5_selector_resolution` hold at the
concrete unrecognized selector "Bogus", where resolution defaults to the
streaming backend while the Interface.go constructor errors. -/
theorem c5_witness :
    getTelemetryType [("TELEMETRY_TYPE", "Bogus")] = TelemetryType.opentelemetry ∧
    newTelemetryIface [("TELEMETRY_TYPE", "Bogus")] =
      .error "unknown telemetry type: Bogus" := by
  have h := c5_selector_resolution [("TELEMETRY_TYPE", "Bogus")] "host"
    (by decide) (by decide) (by decide) (by decide) (by decide)
  exact ⟨h.1, h.2.2.2⟩

/-- C8: When tracing is enabled and the context's current span is recording,
`LogError` with a non-nil error delivers the message to the structured logger,
records the error as an exception event on that span and sets the span status
to the error status carrying the error's message; with tracing disabled, or
when no recording operation is open on the context, the span store is left
unchanged. -/
theorem c8_logError_marks_span (me : Bool) (w : OtelWorld) (ctx : Ctx) (i : Nat)
    (msg e : String) (kvs : List Attr) (w2 : OtelWorld) (ctx2 : Ctx)
    (hi : ctxRecordingSpan w ctx = some i)
    (hnone : ctxRecordingSpan w2 ctx2 = none) :
    (∃ s, w.spans[i]? = some s ∧
      (otLogError { traceEnabled := true, metricsEnabled := me } w ctx msg (some e) kvs).spans =
        w.spans.set i
          { s with
            events := s.events ++ [("exception", kvs ++ [("exception.message", .str e)])],
            status := .error e } ∧
      (otLogError { traceEnabled := true, metricsEnabled := me } w ctx msg (some e) kvs).logLines =
        w.logLines ++ [.error msg (some e) kvs]) ∧
    (∀ err : GoError,
      (otLogError { traceEnabled := false, metricsEnabled := me } w ctx msg err kvs).spans =
        w.spans) ∧
    (otLogError { traceEnabled := true, metricsEnabled := me } w2 ctx2 msg (some e) kvs).spans =
      w2.spans := by
  have hrec : ∀ (v : OtelWorld) (c : Ctx) (L : List LogLine),
      ctxRecordingSpan { v with logLines := L } c = ctxRecordingSpan v c := fun v c L => rfl
  refine ⟨?_, ?_, ?_⟩
  · cases hctx : ctx.otelSpan with
    | none => simp [ctxRecordingSpan, hctx] at hi
    | some j =>
      cases hs : w.spans[j]? with
      | none => simp [ctxRecordingSpan, hctx, hs] at hi
      | some s =>
        cases he : s.ended with
        | true => simp [ctxRecordingSpan, hctx, hs, he] at hi
        | false =>
          simp only [ctxRecordingSpan, hctx, hs, he, Bool.false_eq_true, if_false,
            Option.some.injEq] at hi
          subst hi
          refine ⟨s, hs, ?_, ?_⟩
          · unfold otLogError otRecordError
            simp only [Bool.not_true, Bool.false_eq_true, if_false, hrec]
            have hrs : ctxRecordingSpan w ctx = some j := by
              simp [ctxRecordingSpan, hctx, hs, he]
            rw [hrs]
            unfold modifySpan
            simp only [hs]
            simp [spanRecordError, spanAddEvent, spanSetStatus, he]
          · unfold otLogError
            rw [otRecordError_logLines]
  · intro err
    unfold otLogError otRecordError
    simp
  · unfold otLogError otRecordError
    simp only [Bool.not_true, Bool.false_eq_true, if_false, hrec, hnone]

/-- C8 witness: the hypotheses of `c8_logError_marks_span` hold at a concrete
world containing one live span referenced by the context, together with the
empty world whose context holds no span. -/
theorem c8_witness :
    ctxRecordingSpan { emptyOtelWorld with spans := [newOtelSpan "op"] }
      { otelSpan := some 0 } = some 0 ∧
    ctxRecordingSpan emptyOtelWorld {} = none ∧
    (∃ s, ({ emptyOtelWorld with spans := [newOtelSpan "op"] } : OtelWorld).spans[0]? = some s ∧
      (otLogError { traceEnabled := true, metricsEnabled := false }
        { emptyOtelWorld with spans := [newOtelSpan "op"] } { otelSpan := some 0 }
        "failed" (some "boom") []).spans =
        ({ emptyOtelWorld with spans := [newOtelSpan "op"] } : OtelWorld).spans.set 0
          { s with
            events := s.events ++ [("exception", [("exception.message", .str "boom")])],
            status := .error "boom" } ∧
      (otLogError { traceEnabled := true, metricsEnabled := false }
        { emptyOtelWorld with spans := [newOtelSpan "op"] } { otelSpan := some 0 }
        "failed" (some "boom") []).logLines = [.error "failed" (some "boom") []]) := by
  have h := c8_logError_marks_span false { emptyOtelWorld with spans := [newOtelSpan "op"] }
    { otelSpan := some 0 } 0 "failed" "boom" [] emptyOtelWorld {} rfl rfl
  obtain ⟨s, hs, hspans, hlog⟩ := h.1
  exact ⟨rfl, rfl, s, hs, by simpa using hspans, by simpa using hlog⟩

/-- C9 counterexample: with the backend selector set to "appinsights" and
SERVICE_NAME unset, the flat backend's configuration resolution yields
service name "Melina", not "unknown-service". -/
theorem c9_counterexample :
    getTelemetryType [("TELEMETRY_TYPE", "appinsights")] = TelemetryType.appinsights ∧
    (newAppInsightsTelemetry [("TELEMETRY_TYPE", "appinsights")] "host").serviceName =
      "Melina" ∧
    (newAppInsightsTelemetry [("TELEMETRY_TYPE", "appinsights")] "host").serviceName ≠
      "unknown-service" := by
  refine ⟨rfl, rfl, ?_⟩
  decide

/-- C9 (amended): Whenever SERVICE_NAME is unset, the streaming-backend
resolution (Interface.go and the combined NewTelemetry) yields service name
"unknown-service", while the flat (AppInsights) backend construction yields
"Melina". -/
theorem c9_service_name_default (env : Env) (hostname : String)
    (hsvc : getenv env "SERVICE_NAME" = "") :
    resolveServiceName env = "unknown-service" ∧
    (resolveOtelConfig env).serviceName = "unknown-service" ∧
    (newAppInsightsTelemetry env hostname).serviceName = "Melina" := by
  refine ⟨?_, ?_, ?_⟩ <;>
    simp [resolveServiceName, resolveOtelConfig, newAppInsightsTelemetry, hsvc]

/-- C9 witness: the hypothesis of `c9_service_name_default` holds at the
empty environment, where SERVICE_NAME is unset. -/
theorem c9_witness :
    getenv ([] : Env) "SERVICE_NAME" = "" ∧
    resolveServiceName [] = "unknown-service" ∧
    (newAppInsightsTelemetry [] "host").serviceName = "Melina" := by
  have h := c9_service_name_default [] "host" rfl
  exact ⟨rfl, h.1, h.2.2⟩

end SadGoTelemetry
